import Mathlib

/-!
Verification of the serverless-agent-pattern repository's invocation bridge.

This file gives a shallow embedding of the parts of the code that the
claims concern:

* `src/constants.ts` — the closed enumeration of agent names;
* `src/lambda/shared.ts` — the zod envelope schema (`BodyContentSchema`,
  `EventBodySchema`);
* `src/lambda/buffered.ts` — the buffered (API Gateway) handler;
* `src/lambda/streaming.ts` — the streaming (Function URL) handler and the
  `namespacedThreadId` derivation;
* `src/lib/index.ts` — the lazily-initialized Mastra instance;
* `scripts/utils/invoke-api-utils.ts` — the buffered and streaming client
  transports and the CloudFormation stack-output lookups;
* `scripts/interactive-chat.ts` — configuration resolution (endpoint
  lookups and session-id generation) and the session resume hint.

Effectful code is embedded by making its effects explicit: handlers return
their HTTP response (or write trace) together with an `Option DispatchCall`
recording the agent dispatch they performed, the client transports return
the trace of `onChunk` callbacks next to the error they throw, and the
process-wide Mastra singleton is a state-passing step function.
-/

namespace ServerlessAgentPattern

/-! ## src/constants.ts -/

def CLOUDFORMATION_AGENT : String := "cloudformationAgent"

def CODEPIPELINE_AGENT : String := "codepipelineAgent"

def CLOUDWATCHLOGS_AGENT : String := "cloudwatchLogsAgent"

def LAMBDA_AGENT : String := "lambdaAgent"

def DYNAMODB_AGENT : String := "dynamodbAgent"

def S3_AGENT : String := "s3Agent"

def AWS_AGENT : String := "awsAgent"

def AWS_AGENT_NETWORK : String := "awsAgentNetwork"

def AWS_AGENT_NAMES : List String :=
  [CLOUDFORMATION_AGENT, CODEPIPELINE_AGENT, CLOUDWATCHLOGS_AGENT,
   LAMBDA_AGENT, DYNAMODB_AGENT, S3_AGENT, AWS_AGENT]

def AWS_AGENT_NAMES_WITH_NETWORK : List String :=
  AWS_AGENT_NAMES ++ [AWS_AGENT_NETWORK]

/-! ## A minimal JSON value model for response bodies

The handlers build their response bodies with `JSON.stringify` applied to
object literals; we keep the bodies structured. -/

inductive Json where
  | str (s : String)
  | arr (elems : List Json)
  | obj (fields : List (String × Json))

/-! ## src/lambda/shared.ts — the envelope schema

`BodyContentSchema` is a zod object with three required string fields and
an optional `agent` field constrained to `AWS_AGENT_NAMES_WITH_NETWORK`
and defaulted to `AWS_AGENT`.  A candidate body field is `none` when the
field is absent (or not a string); zod collects one issue per bad field,
in shape order. -/

structure BodyContentInput where
  query : Option String
  threadId : Option String
  resourceId : Option String
  agent : Option String
deriving DecidableEq, Repr

structure Envelope where
  query : String
  threadId : String
  resourceId : String
  agent : String
deriving DecidableEq, Repr

def bodyContentErrors (b : BodyContentInput) : List String :=
  (if b.query.isSome then [] else ["Required"]) ++
  (if b.threadId.isSome then [] else ["Required"]) ++
  (if b.resourceId.isSome then [] else ["Required"]) ++
  (match b.agent with
   | none => []
   | some a =>
     if AWS_AGENT_NAMES_WITH_NETWORK.contains a then [] else ["Invalid enum value"])

def parseBodyContent (b : BodyContentInput) : Except (List String) Envelope :=
  if bodyContentErrors b = [] then
    Except.ok
      { query := b.query.getD ""
        threadId := b.threadId.getD ""
        resourceId := b.resourceId.getD ""
        agent := b.agent.getD AWS_AGENT }
  else
    Except.error (bodyContentErrors b)

/-- The `EventBodySchema`: a nullable string refined to be non-null and valid
JSON, then piped into `BodyContentSchema`.  `nullBody` models a `null`
body, `invalidJson` a body that fails `JSON.parse`. -/
inductive EventBody where
  | nullBody
  | invalidJson
  | jsonBody (content : BodyContentInput)
deriving DecidableEq, Repr

def parseEventBody : EventBody → Except (List String) Envelope
  | EventBody.nullBody => Except.error ["Missing request body"]
  | EventBody.invalidJson => Except.error ["Invalid JSON in request body"]
  | EventBody.jsonBody b => parseBodyContent b

/-! ## The dispatch record

Each handler's call into the agent framework (`selectedAgent.generate`,
`selectedAgent.stream` or `network.stream`) is recorded as a
`DispatchCall` carrying the arguments the handler actually passed. -/

structure DispatchCall where
  agent : String
  threadId : String
  resourceId : String
  query : String
deriving DecidableEq, Repr

/-- The dispatch arguments the buffered handler builds from a validated
envelope: the envelope's fields, passed through unchanged. -/
def envelopeCall (env : Envelope) : DispatchCall :=
  { agent := env.agent, threadId := env.threadId
    resourceId := env.resourceId, query := env.query }

/-! ## src/lambda/buffered.ts — the buffered handler -/

/-- Outcome of the `await selectedAgent.generate(...)` call: either the
generated text or a thrown error's message. -/
inductive AgentOutcome where
  | success (text : String)
  | failure (message : String)
deriving DecidableEq, Repr

structure ApiResponse where
  statusCode : Nat
  body : Json

def invalidRequestBody (errs : List String) : Json :=
  Json.obj [("message", Json.str "Invalid request"),
            ("errors", Json.arr (errs.map Json.str))]

def internalErrorBody (msg : String) : Json :=
  Json.obj [("message", Json.str "Internal Server Error"),
            ("error", Json.str msg)]

/-- The message of the error thrown by the Mastra library's `getAgent`
when asked for a name that `initializeMastra` never registered.  The only
schema-valid such name is `awsAgentNetwork`: `buffered.ts` — unlike
`streaming.ts` — has no network branch, so `mastra.getAgent` fails there
before `generate` is ever reached. -/
def agentNotFoundMessage (a : String) : String :=
  "Agent with name " ++ a ++ " not found"

/-- The buffered Lambda handler.  `agentRun` models the agent framework:
given the dispatch arguments it yields the generation outcome.  The second
component records the dispatch made (`none` when validation failed, or
when `mastra.getAgent` threw for an unregistered agent name, so that
`selectedAgent.generate` was never invoked).  Only the seven names of
`AWS_AGENT_NAMES` are registered in `initializeMastra`; for the
schema-valid `awsAgentNetwork` the `getAgent` call throws, the catch
answers 500, and no dispatch occurs. -/
def bufferedHandler (ev : EventBody) (agentRun : DispatchCall → AgentOutcome) :
    ApiResponse × Option DispatchCall :=
  match parseEventBody ev with
  | Except.error errs =>
    ({ statusCode := 400, body := invalidRequestBody errs }, none)
  | Except.ok env =>
    if AWS_AGENT_NAMES.contains env.agent then
      -- the handler passes the envelope's threadId/resourceId through unchanged
      let call := envelopeCall env
      match agentRun call with
      | AgentOutcome.success text =>
        ({ statusCode := 200
           body := Json.obj [("message", Json.str text),
                             ("agent", Json.str env.agent)] }, some call)
      | AgentOutcome.failure msg =>
        ({ statusCode := 500, body := internalErrorBody msg }, some call)
    else
      -- mastra.getAgent throws; caught by the handler's catch, no dispatch
      ({ statusCode := 500
         body := internalErrorBody (agentNotFoundMessage env.agent) }, none)

/-! ## src/lambda/streaming.ts — the streaming handler -/

/-- One write to the Lambda response stream: either a serialized JSON
error payload or a raw text fragment from the agent's text stream. -/
inductive StreamWrite where
  | errorJson (payload : Json)
  | text (chunk : String)

/-- Outcome of `selectedAgent.stream` / `network.stream`: the sequence of
text-stream fragments, or a thrown error's message. -/
inductive StreamOutcome where
  | chunks (fragments : List String)
  | failure (message : String)
deriving DecidableEq, Repr

/-- The write loop `for await (const chunk of stream.textStream) responseStream.write(chunk)`. -/
def writeLoop : List String → List StreamWrite
  | [] => []
  | chunk :: rest => StreamWrite.text chunk :: writeLoop rest

/-- The `namespacedThreadId` computation of the streaming handler
(src/lambda/streaming.ts line 63): `` `${agent}::${threadId}` ``.  This is
the spec's `deriveThreadId`. -/
def deriveThreadId (agentName sessionId : String) : String :=
  agentName ++ "::" ++ sessionId

/-- The streaming Lambda handler.  Returns the trace of writes to the
response stream and the dispatch made, if any.  `mastra.getAgent` finds
exactly the agents registered in `initializeMastra`, i.e. the names in
`AWS_AGENT_NAMES`; the `awsAgentNetwork` branch constructs the network
instead. -/
def streamingHandler (ev : EventBody) (agentRun : DispatchCall → StreamOutcome) :
    List StreamWrite × Option DispatchCall :=
  match parseEventBody ev with
  | Except.error errs =>
    ([StreamWrite.errorJson (invalidRequestBody errs)], none)
  | Except.ok env =>
    let call : DispatchCall :=
      { agent := env.agent
        threadId := deriveThreadId env.agent env.threadId
        resourceId := env.resourceId
        query := env.query }
    if env.agent = AWS_AGENT_NETWORK then
      match agentRun call with
      | StreamOutcome.chunks frags => (writeLoop frags, some call)
      | StreamOutcome.failure msg =>
        ([StreamWrite.errorJson (internalErrorBody msg)], some call)
    else if AWS_AGENT_NAMES.contains env.agent then
      match agentRun call with
      | StreamOutcome.chunks frags => (writeLoop frags, some call)
      | StreamOutcome.failure msg =>
        ([StreamWrite.errorJson (internalErrorBody msg)], some call)
    else
      ([StreamWrite.errorJson (Json.obj [("message",
          Json.str ("Agent \"" ++ env.agent ++ "\" not found. Valid agents are: "
            ++ String.intercalate ", " AWS_AGENT_NAMES ++ "."))])], none)

/-! ## scripts/utils/invoke-api-utils.ts — the client transports -/

/-- A fetch response as the streaming client sees it: the `ok` flag, the
status code, and the readable body as the sequence of decoded text chunks
the reader will deliver (`none` when `response.body` is absent). -/
structure FetchResponse where
  ok : Bool
  status : Nat
  body : Option (List String)
deriving DecidableEq, Repr

/-- The `while (true) { reader.read() ... onChunk(text) }` loop: each
delivered chunk is handed to `onChunk` immediately, in arrival order. -/
def readLoop : List String → List String
  | [] => []
  | chunk :: rest => chunk :: readLoop rest

/-- The client `invokeStreamingRequest`, reduced to its observable behaviour on a
given response: the trace of `onChunk` invocations (first component) and
the error it throws, if any (second component). -/
def invokeStreamingRequest (resp : FetchResponse) : List String × Option String :=
  if resp.ok = false then
    ([], some ("Streaming request failed with status " ++ toString resp.status))
  else
    match resp.body with
    | none => ([], some "No response body received from the streaming request")
    | some chunks => (readLoop chunks, none)

/-- A fetch response as the buffered client sees it; `jsonBody` is `none`
when the body fails `response.json()`. -/
structure BufferedFetchResponse where
  ok : Bool
  status : Nat
  jsonBody : Option Json

/-- The client `invokeSignedApiRequest`: awaits `response.json()` (which throws on a
non-JSON body), then throws on non-2xx, carrying the status code in the
error message, else returns the parsed body. -/
def invokeSignedApiRequest (resp : BufferedFetchResponse) : Except String Json :=
  match resp.jsonBody with
  | none => Except.error "Unexpected end of JSON input"
  | some responseBody =>
    if resp.ok = false then
      Except.error ("Request failed with status " ++ toString resp.status)
    else
      Except.ok responseBody

/-! ## src/lib/index.ts — the lazily-initialized Mastra instance

```
let mastraInstancePromise: Promise<Mastra> | null = null
export function getMastraInstance(): Promise<Mastra> {
  if (!mastraInstancePromise) { mastraInstancePromise = initializeMastra() }
  return mastraInstancePromise
}
```

The module-level variable is the state.  Promise identities are modelled
as natural numbers; `initCount` counts how many times `initializeMastra`
has been started, and also serves as the identity of the promise a fresh
initialization creates.  The check-and-assign is synchronous JavaScript,
so concurrent first callers are interleaved at call granularity: a run is
any finite sequence of calls. -/

structure MastraState where
  instPromise : Option Nat
  initCount : Nat
deriving DecidableEq, Repr

def initialMastraState : MastraState := { instPromise := none, initCount := 0 }

def getMastraInstance : MastraState → Nat × MastraState
  | { instPromise := none, initCount := k } =>
    (k, { instPromise := some k, initCount := k + 1 })
  | { instPromise := some p, initCount := k } =>
    (p, { instPromise := some p, initCount := k })

/-- A sequence of `n` calls to `getMastraInstance`, returning the list of
promises handed to the callers and the final module state. -/
def runGetMastraCalls : Nat → MastraState → List Nat × MastraState
  | 0, s => ([], s)
  | n + 1, s =>
    let (r, s') := getMastraInstance s
    let (rs, s'') := runGetMastraCalls n s'
    (r :: rs, s'')

/-! ## scripts/interactive-chat.ts — session id and configuration

`loadAndValidateConfig` resolves the session id
(`argv.sessionId || ` `` `chat-${Date.now()}` ``), always performs the
`getFunctionUrl` stack lookup, disables streaming when no Function URL
was found, and performs the `getApiEndpoint` stack lookup only when no
`--endpoint` override was given and streaming ended up disabled. -/

/-- The generated session id `` `chat-${Date.now()}` `` (spec §4.5
`generateSessionId`), as a function of the millisecond timestamp. -/
def generateSessionId (now : Nat) : String := "chat-" ++ toString now

/-- The resolution `argv.sessionId || generateSessionId(now)`: JavaScript `||` treats the
empty string as falsy. -/
def resolveSessionId (argSessionId : Option String) (now : Nat) : String :=
  match argSessionId with
  | some s => if s = "" then generateSessionId now else s
  | none => generateSessionId now

/-- The two CloudFormation stack-output lookups of
`scripts/utils/invoke-api-utils.ts` (both are `DescribeStacks` calls). -/
inductive StackLookup where
  | functionUrl
  | apiEndpoint
deriving DecidableEq, Repr

structure ChatCliArgs where
  endpoint : Option String
  streaming : Bool
  sessionId : Option String
deriving DecidableEq, Repr

/-- What the deployed stack's outputs would answer, were they queried. -/
structure StackOutputs where
  functionUrl : Option String
  apiEndpoint : Option String
deriving DecidableEq, Repr

structure ResolvedConfig where
  sessionId : String
  lambdaFunctionUrl : Option String
  apiGatewayEndpoint : Option String
  initialUseStreaming : Bool
deriving DecidableEq, Repr

/-- The script's `loadAndValidateConfig`: returns the resolved configuration (`none`
models `process.exit(1)`) together with the trace of stack-output lookups
performed, in order. -/
def loadAndValidateConfig (args : ChatCliArgs) (outputs : StackOutputs)
    (now : Nat) : Option ResolvedConfig × List StackLookup :=
  let sessionId := resolveSessionId args.sessionId now
  -- `getFunctionUrl` is invoked unconditionally
  let lambdaFunctionUrl := outputs.functionUrl
  -- streaming is disabled when the Function URL is missing
  let useStreaming := args.streaming && lambdaFunctionUrl.isSome
  if args.endpoint.isNone && !useStreaming then
    -- no endpoint override and not streaming: fetch the API endpoint
    match outputs.apiEndpoint with
    | some ep =>
      (some { sessionId := sessionId, lambdaFunctionUrl := lambdaFunctionUrl
              apiGatewayEndpoint := some ep, initialUseStreaming := useStreaming },
       [StackLookup.functionUrl, StackLookup.apiEndpoint])
    | none => (none, [StackLookup.functionUrl, StackLookup.apiEndpoint])
  else
    if lambdaFunctionUrl.isNone && args.endpoint.isNone then
      (none, [StackLookup.functionUrl])
    else
      (some { sessionId := sessionId, lambdaFunctionUrl := lambdaFunctionUrl
              apiGatewayEndpoint := args.endpoint, initialUseStreaming := useStreaming },
       [StackLookup.functionUrl])

/-- The resume hint printed by `startInteractiveChat`: a supplied id is
echoed as "(Resuming session with ID: …)", a generated one as
"(Use --session-id … to resume later.)" — either way the session id in
use is reported to the caller.  (`sessionId.startsWith('chat-')` is
modelled as a character-list prefix test.) -/
def sessionResumeHint (sessionId : String) : String :=
  if "chat-".data.isPrefixOf sessionId.data = false then
    "(Resuming session with ID: " ++ sessionId ++ ")"
  else
    "(Use --session-id " ++ sessionId ++ " to resume later.)"

/-- URL-safe characters: the unreserved set of RFC 3986. -/
def isUrlSafeChar (c : Char) : Bool :=
  c.isAlpha || c.isDigit || c = '-' || c = '.' || c = '_' || c = '~'

/-! ## The `::` separator on character lists

Helpers for reasoning about the thread-id derivation: whether a string
contains the two-character separator `::`, whether it ends in `:`, and
splitting at the first occurrence of `::`. -/

def containsSep : List Char → Bool
  | [] => false
  | [_] => false
  | c₁ :: c₂ :: rest => (c₁ = ':' && c₂ = ':') || containsSep (c₂ :: rest)

def endsWithColon : List Char → Bool
  | [] => false
  | [c] => c = ':'
  | _ :: c :: rest => endsWithColon (c :: rest)

def splitAtFirstSep : List Char → Option (List Char × List Char)
  | [] => none
  | [_] => none
  | c₁ :: c₂ :: rest =>
    if c₁ = ':' ∧ c₂ = ':' then some ([], rest)
    else
      match splitAtFirstSep (c₂ :: rest) with
      | some (pre, suf) => some (c₁ :: pre, suf)
      | none => none

/-- The numeric value of a decimal digit string (used to show that
`Nat`'s decimal rendering, as used by `` `chat-${Date.now()}` ``, is
injective). -/
def decimalValue (l : List Char) : Nat :=
  l.foldl (fun acc c => acc * 10 + (c.toNat - '0'.toNat)) 0

/-! ## Helper lemmas -/

theorem digitChar_toNat {d : Nat} (h : d < 10) :
    (Nat.digitChar d).toNat - 48 = d := by
  interval_cases d <;> rfl

theorem digitChar_isDigit {d : Nat} (h : d < 10) : (Nat.digitChar d).isDigit = true := by
  interval_cases d <;> rfl

theorem toDigitsCore_shift (fuel : Nat) : ∀ (n : Nat) (acc : List Char),
    Nat.toDigitsCore 10 fuel n acc = Nat.toDigitsCore 10 fuel n [] ++ acc := by
  induction fuel with
  | zero => intro n acc; simp [Nat.toDigitsCore]
  | succ f ih =>
    intro n acc
    simp only [Nat.toDigitsCore]
    by_cases hz : n / 10 = 0
    · simp [hz]
    · simp only [hz, if_false]
      rw [ih (n / 10) [Nat.digitChar (n % 10)], ih (n / 10) (Nat.digitChar (n % 10) :: acc)]
      simp

theorem toDigitsCore_fuel (fuel₁ : Nat) : ∀ (fuel₂ n : Nat) (acc : List Char),
    n < fuel₁ → n < fuel₂ →
    Nat.toDigitsCore 10 fuel₁ n acc = Nat.toDigitsCore 10 fuel₂ n acc := by
  induction fuel₁ with
  | zero => intro fuel₂ n acc h1 h2; omega
  | succ f ih =>
    intro fuel₂ n acc h1 h2
    cases fuel₂ with
    | zero => omega
    | succ g =>
      simp only [Nat.toDigitsCore]
      by_cases hz : n / 10 = 0
      · simp [hz]
      · simp only [hz, if_false]
        have hpos : 0 < n := by
          rcases Nat.eq_zero_or_pos n with h | h
          · subst h; simp at hz
          · exact h
        have hlt : n / 10 < n := Nat.div_lt_self hpos (by norm_num)
        exact ih g (n / 10) _ (by omega) (by omega)

theorem decimalValue_append (xs : List Char) (c : Char) :
    decimalValue (xs ++ [c]) = decimalValue xs * 10 + (c.toNat - '0'.toNat) := by
  simp [decimalValue, List.foldl_append]

theorem decimalValue_toDigits (n : Nat) : decimalValue (Nat.toDigits 10 n) = n := by
  induction n using Nat.strong_induction_on with
  | _ n ih =>
    by_cases hz : n / 10 = 0
    · have hn : n < 10 := by omega
      have : Nat.toDigits 10 n = [Nat.digitChar (n % 10)] := by
        simp [Nat.toDigits, Nat.toDigitsCore, hz]
      rw [this]
      have : decimalValue [Nat.digitChar (n % 10)] = n % 10 := by
        simp only [decimalValue, List.foldl_cons, List.foldl_nil, Nat.zero_mul, Nat.zero_add]
        exact digitChar_toNat (Nat.mod_lt n (by norm_num))
      rw [this]; omega
    · have hpos : 0 < n := by
        rcases Nat.eq_zero_or_pos n with h | h
        · subst h; simp at hz
        · exact h
      have hlt : n / 10 < n := Nat.div_lt_self hpos (by norm_num)
      have e1 : Nat.toDigits 10 n =
          Nat.toDigitsCore 10 n (n / 10) [Nat.digitChar (n % 10)] := by
        simp [Nat.toDigits, Nat.toDigitsCore, hz]
      have step : Nat.toDigits 10 n =
          Nat.toDigits 10 (n / 10) ++ [Nat.digitChar (n % 10)] := by
        rw [e1, toDigitsCore_fuel n (n / 10 + 1) (n / 10) _ (by omega) (by omega),
            toDigitsCore_shift]
        rfl
      rw [step, decimalValue_append, ih (n / 10) hlt]
      have h48 : '0'.toNat = 48 := rfl
      rw [h48, digitChar_toNat (Nat.mod_lt n (by norm_num))]
      omega

theorem repr_injective {m n : Nat} (h : Nat.repr m = Nat.repr n) : m = n := by
  have hd : Nat.toDigits 10 m = Nat.toDigits 10 n := congrArg String.data h
  have hv := decimalValue_toDigits m
  rw [hd, decimalValue_toDigits n] at hv
  omega

theorem toDigits_all_digits (fuel : Nat) : ∀ (n : Nat) (acc : List Char),
    (∀ c ∈ acc, c.isDigit = true) →
    ∀ c ∈ Nat.toDigitsCore 10 fuel n acc, c.isDigit = true := by
  induction fuel with
  | zero => intro n acc hacc; simpa [Nat.toDigitsCore] using hacc
  | succ f ih =>
    intro n acc hacc
    simp only [Nat.toDigitsCore]
    by_cases hz : n / 10 = 0
    · simp only [hz, if_true]
      intro c hc
      rcases List.mem_cons.mp hc with h | h
      · subst h; exact digitChar_isDigit (Nat.mod_lt n (by norm_num))
      · exact hacc c h
    · simp only [hz, if_false]
      apply ih
      intro c hc
      rcases List.mem_cons.mp hc with h | h
      · subst h; exact digitChar_isDigit (Nat.mod_lt n (by norm_num))
      · exact hacc c h

theorem splitAtFirstSep_append : ∀ (pre suf : List Char),
    containsSep pre = false → endsWithColon pre = false →
    splitAtFirstSep (pre ++ ':' :: ':' :: suf) = some (pre, suf)
  | [], suf, _, _ => by simp [splitAtFirstSep]
  | [c], suf, h1, h2 => by
    have hc : (c = ':') = False := by
      simpa [endsWithColon] using h2
    simp [splitAtFirstSep, hc]
  | c₁ :: c₂ :: rest, suf, h1, h2 => by
    have h1' : containsSep (c₂ :: rest) = false := by
      simp [containsSep] at h1
      exact h1.2
    have hcc : ¬(c₁ = ':' ∧ c₂ = ':') := by
      simp [containsSep] at h1
      intro h
      exact absurd h.2 (h1.1 h.1)
    have h2' : endsWithColon (c₂ :: rest) = false := by
      simpa [endsWithColon] using h2
    have ih := splitAtFirstSep_append (c₂ :: rest) suf h1' h2'
    simp only [List.cons_append] at ih ⊢
    simp [splitAtFirstSep, hcc, ih]

theorem deriveThreadId_data (a s : String) :
    (deriveThreadId a s).data = a.data ++ ':' :: ':' :: s.data := by
  simp [deriveThreadId, String.data_append]

/-- Splitting the derived thread id at the first `::` recovers the pair,
whenever the agent name contains no `::` and does not end in `:`. -/
theorem deriveThreadId_recover (a s : String)
    (h1 : containsSep a.data = false) (h2 : endsWithColon a.data = false) :
    splitAtFirstSep (deriveThreadId a s).data = some (a.data, s.data) := by
  rw [deriveThreadId_data]
  exact splitAtFirstSep_append a.data s.data h1 h2

theorem deriveThreadId_inj {a₁ s₁ a₂ s₂ : String}
    (h1 : containsSep a₁.data = false) (h2 : endsWithColon a₁.data = false)
    (h3 : containsSep a₂.data = false) (h4 : endsWithColon a₂.data = false)
    (h : deriveThreadId a₁ s₁ = deriveThreadId a₂ s₂) : a₁ = a₂ ∧ s₁ = s₂ := by
  have e1 := deriveThreadId_recover a₁ s₁ h1 h2
  have e2 := deriveThreadId_recover a₂ s₂ h3 h4
  rw [h, e2] at e1
  have ha : a₂.data = a₁.data := congrArg Prod.fst (Option.some.inj e1)
  have hs : s₂.data = s₁.data := congrArg Prod.snd (Option.some.inj e1)
  exact ⟨(String.ext ha).symm, (String.ext hs).symm⟩

theorem runGetMastraCalls_some (n : Nat) : ∀ (p k : Nat),
    runGetMastraCalls n { instPromise := some p, initCount := k } =
      (List.replicate n p, { instPromise := some p, initCount := k }) := by
  induction n with
  | zero => intro p k; rfl
  | succ n ih =>
    intro p k
    simp [runGetMastraCalls, getMastraInstance, ih, List.replicate]

theorem readLoop_id (chunks : List String) : readLoop chunks = chunks := by
  induction chunks with
  | nil => rfl
  | cons c rest ih => simp [readLoop, ih]

/-- A successfully parsed envelope's agent is in the closed enumeration. -/
theorem parse_agent_mem {b : BodyContentInput} {env : Envelope}
    (h : parseBodyContent b = Except.ok env) :
    AWS_AGENT_NAMES_WITH_NETWORK.contains env.agent = true := by
  unfold parseBodyContent at h
  by_cases he : bodyContentErrors b = []
  · simp only [he, if_true] at h
    have henv := Except.ok.inj h
    cases hb : b.agent with
    | none =>
      have : env.agent = AWS_AGENT := by rw [← henv]; simp [hb]
      rw [this]
      decide
    | some a =>
      have hcontains : AWS_AGENT_NAMES_WITH_NETWORK.contains a = true := by
        by_contra hcontra
        have : bodyContentErrors b ≠ [] := by
          simp [bodyContentErrors, hb]
          intro _ _ _
          simp [Bool.not_eq_true] at hcontra
          simp [hcontra]
        exact this he
      have : env.agent = a := by rw [← henv]; simp [hb]
      rw [this]
      exact hcontains
  · simp [he] at h

/-- Every name in the closed agent enumeration is free of the `::`
separator and does not end in `:`. -/
theorem enum_agent_sep_free {a : String}
    (h : AWS_AGENT_NAMES_WITH_NETWORK.contains a = true) :
    containsSep a.data = false ∧ endsWithColon a.data = false := by
  have hm : a ∈ AWS_AGENT_NAMES_WITH_NETWORK := by simpa using h
  fin_cases hm <;> exact ⟨rfl, rfl⟩

/-! ## Claims -/

/-- C3, counterexample: the derivation `agentName ++ "::" ++ sessionId`
is NOT injective over all pairs merely excluding the substring `::`:
the two distinct pairs `("a:", "b")` and `("a", ":b")` — neither
component containing `::` — derive the same thread id `"a:::b"`. -/
theorem claim_C3_counterexample :
    deriveThreadId "a:" "b" = deriveThreadId "a" ":b" ∧
    (("a:", "b") : String × String) ≠ ("a", ":b") ∧
    containsSep "a:".data = false ∧ containsSep "b".data = false ∧
    containsSep "a".data = false ∧ containsSep ":b".data = false := by
  exact ⟨rfl, by decide, by decide, by decide, by decide, by decide⟩

/-- C3, amended: for pairs whose components contain no `::` and whose
agent name moreover does not end in `:`, the derivation
`agentName ++ "::" ++ sessionId` is injective, and splitting the derived
thread id at the first `::` recovers exactly the original pair. -/
theorem claim_C3_threadId_injective_recoverable (a₁ s₁ a₂ s₂ : String)
    (ha₁ : containsSep a₁.data = false) (hc₁ : endsWithColon a₁.data = false)
    ( _hs₁ : containsSep s₁.data = false)
    (ha₂ : containsSep a₂.data = false) (hc₂ : endsWithColon a₂.data = false)
    ( _hs₂ : containsSep s₂.data = false) :
    splitAtFirstSep (deriveThreadId a₁ s₁).data = some (a₁.data, s₁.data) ∧
    (deriveThreadId a₁ s₁ = deriveThreadId a₂ s₂ → a₁ = a₂ ∧ s₁ = s₂) :=
  ⟨deriveThreadId_recover a₁ s₁ ha₁ hc₁,
   fun h => deriveThreadId_inj ha₁ hc₁ ha₂ hc₂ h⟩

/-- Witness for the amended C3 theorem at concrete agent names. -/
theorem claim_C3_witness :
    splitAtFirstSep (deriveThreadId "s3Agent" "sess-123").data =
      some ("s3Agent".data, "sess-123".data) ∧
    (deriveThreadId "s3Agent" "abc" = deriveThreadId "awsAgent" "abc" →
      "s3Agent" = "awsAgent" ∧ "abc" = "abc") := by
  have h1 := claim_C3_threadId_injective_recoverable "s3Agent" "sess-123" "awsAgent" "x"
    (by decide) (by decide) (by decide) (by decide) (by decide) (by decide)
  have h2 := claim_C3_threadId_injective_recoverable "s3Agent" "abc" "awsAgent" "abc"
    (by decide) (by decide) (by decide) (by decide) (by decide) (by decide)
  exact ⟨h1.1, h2.2⟩

/-- C4: on a non-2xx response or an absent body, the streaming client
throws a transport error and the `onChunk` callback is never invoked: the
callback trace is empty and the error is present. -/
theorem claim_C4_stream_error_before_fragments (resp : FetchResponse)
    (h : resp.ok = false ∨ resp.body = none) :
    (invokeStreamingRequest resp).1 = [] ∧
    (invokeStreamingRequest resp).2.isSome = true := by
  rcases h with h | h
  · simp [invokeStreamingRequest, h]
  · by_cases hok : resp.ok = false
    · simp [invokeStreamingRequest, hok]
    · simp [invokeStreamingRequest, hok, h]

/-- Witness for C4 at a concrete 403 response with an unread body. -/
theorem claim_C4_witness :
    (invokeStreamingRequest ⟨false, 403, some ["frag"]⟩).1 = [] ∧
    (invokeStreamingRequest ⟨false, 403, some ["frag"]⟩).2.isSome = true :=
  claim_C4_stream_error_before_fragments ⟨false, 403, some ["frag"]⟩ (Or.inl rfl)

/-- C5: on a successful (2xx, readable-body) streaming response, the
client invokes `onChunk` exactly once per fragment, in arrival order —
the callback trace equals the fragment sequence — with no thrown error,
so concatenating the callback arguments reconstructs the full response. -/
theorem claim_C5_stream_fragments_in_order (resp : FetchResponse) (chunks : List String)
    (hok : resp.ok = true) (hbody : resp.body = some chunks) :
    (invokeStreamingRequest resp).1 = chunks ∧
    (invokeStreamingRequest resp).2 = none ∧
    String.join (invokeStreamingRequest resp).1 = String.join chunks := by
  simp [invokeStreamingRequest, hok, hbody, readLoop_id]

/-- Witness for C5: fragments "Hel", "lo ", "World" accumulate to exactly
"Hello World". -/
theorem claim_C5_witness :
    (invokeStreamingRequest ⟨true, 200, some ["Hel", "lo ", "World"]⟩).1 =
      ["Hel", "lo ", "World"] ∧
    String.join (invokeStreamingRequest ⟨true, 200, some ["Hel", "lo ", "World"]⟩).1 =
      "Hello World" := by
  have h := claim_C5_stream_fragments_in_order ⟨true, 200, some ["Hel", "lo ", "World"]⟩
    ["Hel", "lo ", "World"] rfl rfl
  exact ⟨h.1, by rw [h.1]; rfl⟩

/-- C7: in any sequence of `n` calls to `getMastraInstance` starting from
the fresh module state, every caller receives the same promise (the one
created by the first call), and `initializeMastra` runs at most once. -/
theorem claim_C7_mastra_single_initialization (n : Nat) :
    (runGetMastraCalls n initialMastraState).1 = List.replicate n 0 ∧
    (runGetMastraCalls n initialMastraState).2.initCount ≤ 1 := by
  cases n with
  | zero => simp [runGetMastraCalls, initialMastraState]
  | succ n =>
    simp [runGetMastraCalls, initialMastraState, getMastraInstance,
          runGetMastraCalls_some, List.replicate]

/-- C1, counterexample: an envelope with an EMPTY query (and a valid
agent) is NOT rejected — `BodyContentSchema` validates `query` only as a
string — so the handler answers 200 and dispatches to the agent. -/
theorem claim_C1_counterexample :
    (bufferedHandler
        (EventBody.jsonBody ⟨some "", some "t1", some "r1", some "s3Agent"⟩)
        (fun _ => AgentOutcome.success "ok")).1.statusCode = 200 ∧
    (bufferedHandler
        (EventBody.jsonBody ⟨some "", some "t1", some "r1", some "s3Agent"⟩)
        (fun _ => AgentOutcome.success "ok")).2 =
      some ⟨"s3Agent", "t1", "r1", ""⟩ :=
  ⟨rfl, rfl⟩

/-- C1, amended: an envelope whose `agent` field is present and outside
the enumerated set is rejected as a validation failure — HTTP 400 with
body `{message: "Invalid request", errors: string[]}` on the buffered
surface — and no agent dispatch ever occurs for it, on either surface.
(An empty `query`, contrary to the original claim, is not rejected.) -/
theorem claim_C1_invalid_agent_rejected (b : BodyContentInput) (a : String)
    (hagent : b.agent = some a)
    (hbad : AWS_AGENT_NAMES_WITH_NETWORK.contains a = false)
    (run : DispatchCall → AgentOutcome) (srun : DispatchCall → StreamOutcome) :
    (∃ errs, errs ≠ [] ∧
      bufferedHandler (EventBody.jsonBody b) run =
        ({ statusCode := 400, body := invalidRequestBody errs }, none)) ∧
    (streamingHandler (EventBody.jsonBody b) srun).2 = none := by
  have hnm : a ∉ AWS_AGENT_NAMES_WITH_NETWORK := by simpa using hbad
  have hne : bodyContentErrors b ≠ [] := by
    simp [bodyContentErrors, hagent, hnm]
  have hp : parseEventBody (EventBody.jsonBody b) =
      Except.error (bodyContentErrors b) := by
    simp [parseEventBody, parseBodyContent, hne]
  refine ⟨⟨bodyContentErrors b, hne, ?_⟩, ?_⟩
  · simp [bufferedHandler, hp]
  · simp [streamingHandler, hp]

/-- Witness for the amended C1 theorem at a concrete out-of-enumeration
agent name. -/
theorem claim_C1_witness :
    (streamingHandler
        (EventBody.jsonBody ⟨some "hi", some "t", some "r", some "badAgent"⟩)
        (fun _ => StreamOutcome.chunks ["x"])).2 = none :=
  (claim_C1_invalid_agent_rejected ⟨some "hi", some "t", some "r", some "badAgent"⟩
    "badAgent" rfl (by decide) (fun _ => AgentOutcome.success "x")
    (fun _ => StreamOutcome.chunks ["x"])).2

/-- C2, counterexample: the BUFFERED handler dispatches with the
envelope's raw `threadId`, not the agent-namespaced one: for the envelope
{query: "q", threadId: "abc", resourceId: "r", agent: "s3Agent"} the
dispatch carries threadId "abc", which differs from the namespaced
"s3Agent::abc". -/
theorem claim_C2_counterexample :
    (bufferedHandler
        (EventBody.jsonBody ⟨some "q", some "abc", some "r", some "s3Agent"⟩)
        (fun _ => AgentOutcome.success "ok")).2 =
      some ⟨"s3Agent", "abc", "r", "q"⟩ ∧
    ("abc" : String) ≠ deriveThreadId "s3Agent" "abc" :=
  ⟨rfl, by decide⟩

/-- C2, amended: for every validly parsed envelope, the STREAMING handler
dispatches with the agent-namespaced thread id
`agent ++ "::" ++ threadId`, so two streaming dispatches with the same
caller thread/session id but different (enumerated) agent names never
share a thread id.  The buffered handler instead dispatches with the
envelope's thread id unchanged for the seven registered agent names, and
for `awsAgentNetwork` — schema-valid but not registered in
`initializeMastra` — makes no dispatch at all (its `getAgent` lookup
fails before `generate`). -/
theorem claim_C2_streaming_namespaced_dispatch (b : BodyContentInput) (env : Envelope)
    (hparse : parseEventBody (EventBody.jsonBody b) = Except.ok env)
    (srun : DispatchCall → StreamOutcome) (run : DispatchCall → AgentOutcome) :
    (streamingHandler (EventBody.jsonBody b) srun).2 =
      some { agent := env.agent, threadId := deriveThreadId env.agent env.threadId
             resourceId := env.resourceId, query := env.query } ∧
    (env.agent ≠ AWS_AGENT_NETWORK →
      (bufferedHandler (EventBody.jsonBody b) run).2 = some (envelopeCall env)) ∧
    (env.agent = AWS_AGENT_NETWORK →
      (bufferedHandler (EventBody.jsonBody b) run).2 = none) ∧
    (∀ env₂ : Envelope,
      AWS_AGENT_NAMES_WITH_NETWORK.contains env₂.agent = true →
      env₂.threadId = env.threadId → env₂.agent ≠ env.agent →
      deriveThreadId env₂.agent env₂.threadId ≠ deriveThreadId env.agent env.threadId) := by
  have hparse' : parseBodyContent b = Except.ok env := hparse
  have hmem := parse_agent_mem hparse'
  have hnames : env.agent ≠ AWS_AGENT_NETWORK →
      AWS_AGENT_NAMES.contains env.agent = true := by
    intro hnet
    have hm : env.agent ∈ AWS_AGENT_NAMES_WITH_NETWORK := by simpa using hmem
    rcases List.mem_append.mp hm with h2 | h2
    · simpa using h2
    · simp at h2; exact absurd h2 hnet
  refine ⟨?_, ?_, ?_, ?_⟩
  · simp only [streamingHandler, parseEventBody, hparse']
    by_cases hnet : env.agent = AWS_AGENT_NETWORK
    · simp only [hnet, if_true]
      cases srun _ <;> simp [hnet]
    · simp only [hnet, if_false, hnames hnet, if_true]
      cases srun _ <;> simp
  · intro hnet
    simp only [bufferedHandler, parseEventBody, hparse', hnames hnet, if_true]
    cases run _ <;> simp
  · intro hnet
    have hnotm : env.agent ∉ AWS_AGENT_NAMES := by
      rw [hnet]; decide
    simp [bufferedHandler, parseEventBody, hparse', hnotm]
  · intro env₂ hmem₂ hthread hne
    intro heq
    have hsep := enum_agent_sep_free hmem
    have hsep₂ := enum_agent_sep_free hmem₂
    exact hne (deriveThreadId_inj hsep₂.1 hsep₂.2 hsep.1 hsep.2 heq).1

/-- Witness for the amended C2 theorem at concrete envelopes: the
streaming dispatch carries "s3Agent::abc", the buffered one carries the
raw "abc", and switching the agent to "awsAgent" changes the namespaced
thread id. -/
theorem claim_C2_witness :
    (streamingHandler
        (EventBody.jsonBody ⟨some "q", some "abc", some "r", some "s3Agent"⟩)
        (fun _ => StreamOutcome.chunks ["x"])).2 =
      some ⟨"s3Agent", "s3Agent::abc", "r", "q"⟩ ∧
    (bufferedHandler
        (EventBody.jsonBody ⟨some "q", some "abc", some "r", some "s3Agent"⟩)
        (fun _ => AgentOutcome.success "ok")).2 = some ⟨"s3Agent", "abc", "r", "q"⟩ ∧
    deriveThreadId "awsAgent" "abc" ≠ deriveThreadId "s3Agent" "abc" := by
  have h := claim_C2_streaming_namespaced_dispatch
    ⟨some "q", some "abc", some "r", some "s3Agent"⟩ ⟨"q", "abc", "r", "s3Agent"⟩
    rfl (fun _ => StreamOutcome.chunks ["x"]) (fun _ => AgentOutcome.success "ok")
  exact ⟨h.1, h.2.1 (by decide),
         h.2.2.2 ⟨"q", "abc", "r", "awsAgent"⟩ (by decide) rfl (by decide)⟩

/-- C6, counterexample: even when an explicit `--endpoint` override is
supplied, `loadAndValidateConfig` still performs a stack-output lookup —
`getFunctionUrl` is invoked unconditionally — so the number of
endpoint-lookup invocations is 1, not 0. -/
theorem claim_C6_counterexample :
    (loadAndValidateConfig ⟨some "https://api.example.com/chat", true, none⟩
        ⟨some "https://fn.example.com/", some "https://api.example.com/"⟩ 0).2 =
      [StackLookup.functionUrl] ∧
    ((loadAndValidateConfig ⟨some "https://api.example.com/chat", true, none⟩
        ⟨some "https://fn.example.com/", some "https://api.example.com/"⟩ 0).2).length ≠ 0 :=
  ⟨rfl, by decide⟩

/-- C6, amended: when an explicit endpoint override is supplied, the
API-Gateway endpoint lookup (`getApiEndpoint`) is invoked zero times
during configuration resolution; the Function-URL lookup
(`getFunctionUrl`) is nevertheless still invoked, exactly once. -/
theorem claim_C6_override_skips_api_lookup (args : ChatCliArgs)
    (outputs : StackOutputs) (now : Nat) (e : String)
    (hov : args.endpoint = some e) :
    (loadAndValidateConfig args outputs now).2 = [StackLookup.functionUrl] ∧
    StackLookup.apiEndpoint ∉ (loadAndValidateConfig args outputs now).2 := by
  have htrace : (loadAndValidateConfig args outputs now).2 = [StackLookup.functionUrl] := by
    simp only [loadAndValidateConfig, hov]
    simp
  refine ⟨htrace, ?_⟩
  rw [htrace]
  simp

/-- Witness for the amended C6 theorem at a concrete override. -/
theorem claim_C6_witness :
    (loadAndValidateConfig ⟨some "https://api.example.com/chat", false, some "s1"⟩
        ⟨none, none⟩ 42).2 = [StackLookup.functionUrl] :=
  (claim_C6_override_skips_api_lookup ⟨some "https://api.example.com/chat", false, some "s1"⟩
    ⟨none, none⟩ 42 "https://api.example.com/chat" rfl).1

/-- C8: on the buffered path, for every validly parsed envelope naming a
registered agent, a successful generation yields status 200 with body
`{message: <agent's text>, agent: <envelope's agent>}` and an internal
failure yields status 500 with body
`{message: "Internal Server Error", error: <message>}`; for the
schema-valid but unregistered `awsAgentNetwork` the `getAgent` lookup
itself is the internal failure, again answered with the 500 shape; and
the buffered client maps any non-2xx JSON response to a thrown error
carrying the status code. -/
theorem claim_C8_buffered_contract (ev : EventBody) (env : Envelope)
    (run : DispatchCall → AgentOutcome)
    (hparse : parseEventBody ev = Except.ok env) :
    (∀ text, env.agent ≠ AWS_AGENT_NETWORK →
      run (envelopeCall env) = AgentOutcome.success text →
      (bufferedHandler ev run).1 =
        { statusCode := 200
          body := Json.obj [("message", Json.str text),
                            ("agent", Json.str env.agent)] }) ∧
    (∀ msg, env.agent ≠ AWS_AGENT_NETWORK →
      run (envelopeCall env) = AgentOutcome.failure msg →
      (bufferedHandler ev run).1 =
        { statusCode := 500, body := internalErrorBody msg }) ∧
    (env.agent = AWS_AGENT_NETWORK →
      (bufferedHandler ev run).1 =
        { statusCode := 500
          body := internalErrorBody (agentNotFoundMessage env.agent) }) ∧
    (∀ (resp : BufferedFetchResponse) (j : Json), resp.jsonBody = some j →
      resp.ok = false →
      invokeSignedApiRequest resp =
        Except.error ("Request failed with status " ++ toString resp.status)) := by
  have hmem : AWS_AGENT_NAMES_WITH_NETWORK.contains env.agent = true := by
    cases ev with
    | nullBody => simp [parseEventBody] at hparse
    | invalidJson => simp [parseEventBody] at hparse
    | jsonBody b => exact parse_agent_mem hparse
  have hnames : env.agent ≠ AWS_AGENT_NETWORK →
      AWS_AGENT_NAMES.contains env.agent = true := by
    intro hnet
    have hm : env.agent ∈ AWS_AGENT_NAMES_WITH_NETWORK := by simpa using hmem
    rcases List.mem_append.mp hm with h2 | h2
    · simpa using h2
    · simp at h2; exact absurd h2 hnet
  refine ⟨?_, ?_, ?_, ?_⟩
  · intro text hnet h
    have hmemN : env.agent ∈ AWS_AGENT_NAMES := by simpa using hnames hnet
    simp [bufferedHandler, hparse, hmemN, h]
  · intro msg hnet h
    have hmemN : env.agent ∈ AWS_AGENT_NAMES := by simpa using hnames hnet
    simp [bufferedHandler, hparse, hmemN, h]
  · intro hnet
    have hnotm : env.agent ∉ AWS_AGENT_NAMES := by
      rw [hnet]; decide
    simp [bufferedHandler, hparse, hnotm]
  · intro resp j hj hok
    simp [invokeSignedApiRequest, hj, hok]

/-- Witness for C8 at a concrete envelope, generation outcome and a
concrete 403 response. -/
theorem claim_C8_witness :
    (bufferedHandler
        (EventBody.jsonBody ⟨some "hi", some "t", some "r", some "awsAgent"⟩)
        (fun _ => AgentOutcome.success "hello")).1.statusCode = 200 ∧
    invokeSignedApiRequest ⟨false, 403, some (Json.str "x")⟩ =
      Except.error "Request failed with status 403" := by
  have h := claim_C8_buffered_contract
    (EventBody.jsonBody ⟨some "hi", some "t", some "r", some "awsAgent"⟩)
    ⟨"hi", "t", "r", "awsAgent"⟩ (fun _ => AgentOutcome.success "hello") rfl
  constructor
  · rw [h.1 "hello" (by decide) rfl]
  · exact h.2.2.2 ⟨false, 403, some (Json.str "x")⟩ (Json.str "x") rfl rfl

/-- C9: the generated session id `chat-<timestamp>` is an injective
function of the generation timestamp (distinct timestamps never collide),
non-empty and URL-safe; the session id actually used — supplied or
generated — is always populated; and the resume hint reported to the
caller contains the session id in use verbatim. -/
theorem claim_C9_sessionId_generated_and_reported :
    (∀ t₁ t₂ : Nat, generateSessionId t₁ = generateSessionId t₂ → t₁ = t₂) ∧
    (∀ t : Nat, generateSessionId t ≠ "" ∧
      ∀ c ∈ (generateSessionId t).data, isUrlSafeChar c = true) ∧
    (∀ (arg : Option String) (now : Nat), resolveSessionId arg now ≠ "") ∧
    (∀ s : String, ∃ pre post : String, sessionResumeHint s = pre ++ s ++ post) := by
  have hgen_ne : ∀ t : Nat, generateSessionId t ≠ "" := by
    intro t h
    have hd := congrArg String.data h
    rw [generateSessionId] at hd
    rw [String.data_append] at hd
    simp at hd
  refine ⟨?_, ?_, ?_, ?_⟩
  · intro t₁ t₂ h
    have hd := congrArg String.data h
    rw [generateSessionId, generateSessionId, String.data_append, String.data_append] at hd
    have := List.append_cancel_left hd
    exact repr_injective (String.ext this)
  · intro t
    refine ⟨hgen_ne t, ?_⟩
    intro c hc
    rw [generateSessionId] at hc
    rw [String.data_append] at hc
    rcases List.mem_append.mp hc with h | h
    · fin_cases h <;> rfl
    · have hdig : c.isDigit = true := by
        have : (toString t).data = Nat.toDigits 10 t := rfl
        rw [this] at h
        exact toDigits_all_digits (t + 1) t [] (by simp) c h
      simp [isUrlSafeChar, hdig]
  · intro arg now
    cases arg with
    | none => exact hgen_ne now
    | some s =>
      by_cases hs : s = ""
      · simp [resolveSessionId, hs]
        exact hgen_ne now
      · simp [resolveSessionId, hs]
  · intro s
    by_cases h : "chat-".data.isPrefixOf s.data = false
    · exact ⟨"(Resuming session with ID: ", ")", by simp [sessionResumeHint, h]⟩
    · exact ⟨"(Use --session-id ", " to resume later.)", by simp [sessionResumeHint, h]⟩

/-- Witness for C9 at concrete timestamps and session ids. -/
theorem claim_C9_witness :
    (generateSessionId 3 = generateSessionId 5 → (3 : Nat) = 5) ∧
    resolveSessionId none 7 ≠ "" ∧
    resolveSessionId (some "my-session") 7 = "my-session" ∧
    sessionResumeHint "chat-7" =
      "(Use --session-id " ++ "chat-7" ++ " to resume later.)" := by
  refine ⟨claim_C9_sessionId_generated_and_reported.1 3 5,
          claim_C9_sessionId_generated_and_reported.2.2.1 none 7, rfl, rfl⟩

/-- C10: an envelope that omits the `agent` field entirely is not
rejected: the schema defaults it to `awsAgent`, the parse succeeds, the
handler does not answer 400, and the dispatch goes to `awsAgent`. -/
theorem claim_C10_missing_agent_defaults (q t r : String)
    (run : DispatchCall → AgentOutcome) :
    parseEventBody (EventBody.jsonBody ⟨some q, some t, some r, none⟩) =
      Except.ok ⟨q, t, r, AWS_AGENT⟩ ∧
    (bufferedHandler (EventBody.jsonBody ⟨some q, some t, some r, none⟩) run).2 =
      some ⟨AWS_AGENT, t, r, q⟩ ∧
    (bufferedHandler (EventBody.jsonBody ⟨some q, some t, some r, none⟩) run).1.statusCode ≠ 400 := by
  have hp : parseEventBody (EventBody.jsonBody ⟨some q, some t, some r, none⟩) =
      Except.ok ⟨q, t, r, AWS_AGENT⟩ := by
    simp [parseEventBody, parseBodyContent, bodyContentErrors]
  have hreg : AWS_AGENT ∈ AWS_AGENT_NAMES := by decide
  refine ⟨hp, ?_, ?_⟩
  · simp only [bufferedHandler, hp]
    cases run _ <;> simp [hreg, envelopeCall]
  · simp only [bufferedHandler, hp]
    cases run _ <;> simp [hreg]

/-- Witness instantiating C7 at a concrete run of three calls. -/
theorem claim_C7_witness :
    (runGetMastraCalls 3 initialMastraState).1 = List.replicate 3 0 ∧
    (runGetMastraCalls 3 initialMastraState).2.initCount ≤ 1 :=
  claim_C7_mastra_single_initialization 3

/-- Witness instantiating C10 at a concrete envelope without an agent
field. -/
theorem claim_C10_witness :
    parseEventBody (EventBody.jsonBody ⟨some "hi", some "t", some "r", none⟩) =
      Except.ok ⟨"hi", "t", "r", AWS_AGENT⟩ ∧
    (bufferedHandler (EventBody.jsonBody ⟨some "hi", some "t", some "r", none⟩)
        (fun _ => AgentOutcome.success "ok")).2 = some ⟨AWS_AGENT, "t", "r", "hi"⟩ ∧
    (bufferedHandler (EventBody.jsonBody ⟨some "hi", some "t", some "r", none⟩)
        (fun _ => AgentOutcome.success "ok")).1.statusCode ≠ 400 :=
  claim_C10_missing_agent_defaults "hi" "t" "r" (fun _ => AgentOutcome.success "ok")

end ServerlessAgentPattern
